import Mathlib

/-!
Shallow embedding of the query-routing core of the ai-powered-search-engine
repository: `simple_search.py` (Filter Extractor), `document_rag.py`
(Hybrid Retriever and Answer Synthesizer), `orchestrator.py` (Query
Classifier and Orchestrator) and `app.py` (request layer).

External collaborators (Azure OpenAI completion and embedding clients,
the Azure Cognitive Search index) are modelled as function parameters:
a call that may raise a Python exception is a function into
`Except PyErr α`.  Python dictionaries with a fixed key set are modelled
as structures whose optional keys are `Option` fields; a key holding a
possibly-`None` Python value is an `Option` inside the field.
-/

/-- Python exception values as they matter to this code: FastAPI
`HTTPException(status_code, detail)` and any other exception carrying a
message.  `str(e)` on a Starlette `HTTPException` renders as
`"{status_code\x7d: {detail\x7d"`. -/
inductive PyErr where
  | http (status_code : Nat) (detail : String)
  | err (msg : String)
deriving DecidableEq, Repr

/-- Python `str(e)` on the exceptions modelled by `PyErr`. -/
def strPyErr : PyErr → String
  | .http c d => toString c ++ ": " ++ d
  | .err m => m

/-- One chat message as passed to the completion provider (`role`,
`content` pairs in the Python message lists). -/
structure ChatMessage where
  role : String
  content : String
deriving DecidableEq, Repr

/-- Python `f"{x\x7d"` formatting of an optional string: `None` renders as
the literal text `"None"`. -/
def pyFormatOptStr : Option String → String
  | none => "None"
  | some s => s

/-- The `QueryType` enum of `orchestrator.py`: the four classification
tags. -/
inductive QueryType where
  | basic_search
  | advanced_search
  | nl2sql
  | clarification_needed
deriving DecidableEq, Repr

/-- The string value of each `QueryType` enum member. -/
def QueryType.value : QueryType → String
  | .basic_search => "basic_search"
  | .advanced_search => "advanced_search"
  | .nl2sql => "nl2sql"
  | .clarification_needed => "clarification_needed"

/-- The `QueryClassification` pydantic model of `orchestrator.py`. -/
structure QueryClassification where
  query_type : QueryType
  confidence : Rat
  reasoning : String
  clarification_question : Option String := none
deriving DecidableEq, Repr

/-- The `SearchParameters` pydantic model of `simple_search.py`: the
Filter Extractor\x27s structured output. -/
structure SearchParameters where
  DateIssuedBegin : Option Int := none
  DateIssuedEnd : Option Int := none
  LegalIssue : List String := []
  Program : List String := []
  DocumentType : List String := []
  RegulatoryProvision : List String := []
  Published : Option Bool := none
  EnforcementCharacterization : List String := []
  NumberOfViolationsLow : Option Int := none
  NumberOfViolationsHigh : Option Int := none
  OFACPenalty : List String := []
  AggregatePenalty : List String := []
  Industry : List String := []
  RespondentNationality : List String := []
  VoluntaryDisclosure : List String := []
  EgregiousCase : List String := []
  KeyWords : String := ""
  ExcludeCommentaries : Bool := false
deriving DecidableEq, Repr

/-- The dictionary produced by `structured_outputs_mapping`: the same
keys as `SearchParameters`, with every list facet\x27s human-readable
values replaced by integer IDs. -/
structure MappedParams where
  DateIssuedBegin : Option Int := none
  DateIssuedEnd : Option Int := none
  LegalIssue : List Int := []
  Program : List Int := []
  DocumentType : List Int := []
  RegulatoryProvision : List Int := []
  Published : Option Bool := none
  EnforcementCharacterization : List Int := []
  NumberOfViolationsLow : Option Int := none
  NumberOfViolationsHigh : Option Int := none
  OFACPenalty : List Int := []
  AggregatePenalty : List Int := []
  Industry : List Int := []
  RespondentNationality : List Int := []
  VoluntaryDisclosure : List Int := []
  EgregiousCase : List Int := []
  KeyWords : String := ""
  ExcludeCommentaries : Bool := false
deriving DecidableEq, Repr

/-- Modelled from the spec: `simple_search.py` imports
`simple_search_prompt` from `prompts.py`, but `prompts.py` defines no
binding of that name (only `query_prompt` and
`question_classification_prompt`).  Per spec section 4.2 it is a system
prompt enumerating the valid facet vocabularies; its text is opaque to
every claim. -/
def simple_search_prompt : String :=
  "System prompt enumerating the valid facet vocabularies (document types, legal issues, programs)."

/-- The message list built inside `user_query_to_structured_outputs`. -/
def extract_messages (user_input : String) : List ChatMessage :=
  [⟨"system", simple_search_prompt⟩, ⟨"user", user_input⟩]

/-- Function 2 of `simple_search.py`: one schema-constrained completion
call; any exception (or unparseable result) is caught and `None` is
returned. -/
def user_query_to_structured_outputs
    (extract_completion : List ChatMessage → Except PyErr SearchParameters)
    (user_input : String) : Option SearchParameters :=
  match extract_completion (extract_messages user_input) with
  | .ok structured_output => some structured_output
  | .error _ => none

/-- Placeholder ID mapping applied to each non-empty list facet in
`structured_outputs_mapping`: every human-readable value maps to ID 1. -/
def map_list_field (original_values : List String) : List Int :=
  if original_values.isEmpty then [] else original_values.map (fun _ => (1 : Int))

/-- Function 3 of `simple_search.py`: map display values to ID codes.
The loop body `mapped_id = 1` is the acknowledged placeholder.  The
Python `try` around pure dictionary manipulation cannot fail, so the
function is total. -/
def structured_outputs_mapping (search_params : SearchParameters) : MappedParams :=
  { DateIssuedBegin := search_params.DateIssuedBegin
    DateIssuedEnd := search_params.DateIssuedEnd
    LegalIssue := map_list_field search_params.LegalIssue
    Program := map_list_field search_params.Program
    DocumentType := map_list_field search_params.DocumentType
    RegulatoryProvision := map_list_field search_params.RegulatoryProvision
    Published := search_params.Published
    EnforcementCharacterization := map_list_field search_params.EnforcementCharacterization
    NumberOfViolationsLow := search_params.NumberOfViolationsLow
    NumberOfViolationsHigh := search_params.NumberOfViolationsHigh
    OFACPenalty := map_list_field search_params.OFACPenalty
    AggregatePenalty := map_list_field search_params.AggregatePenalty
    Industry := map_list_field search_params.Industry
    RespondentNationality := map_list_field search_params.RespondentNationality
    VoluntaryDisclosure := map_list_field search_params.VoluntaryDisclosure
    EgregiousCase := map_list_field search_params.EgregiousCase
    KeyWords := search_params.KeyWords
    ExcludeCommentaries := search_params.ExcludeCommentaries }

/-- Function 4 of `simple_search.py`: returns the mapped parameters
unchanged (its `try` cannot fail). -/
def create_final_json_payload (mapped_params : MappedParams) : MappedParams :=
  mapped_params

/-- The `basic_search` pipeline of `simple_search.py`.  Returns `none`
when the structured-outputs step failed; the truthiness guards on
`mapped_params` and `final_payload` are always satisfied because the
mapped dictionary always carries its eighteen keys. -/
def basic_search
    (extract_completion : List ChatMessage → Except PyErr SearchParameters)
    (user_input : String) : Option MappedParams :=
  match user_query_to_structured_outputs extract_completion user_input with
  | none => none
  | some structured_outputs =>
      some (create_final_json_payload (structured_outputs_mapping structured_outputs))

/-!
Embedding of `document_rag.py`: the Hybrid Retriever (`run_search`) and
the Answer Synthesizer (`generate_answer`, `process_question`).
Embedding vectors are lists of rationals; relevance scores are
rationals carried through unchanged.
-/

/-- `NUM_SEARCH_RESULTS` of `document_rag.py`: the `top` limit passed to
the Evidence Store. -/
def NUM_SEARCH_RESULTS : Nat := 15

/-- `K_NEAREST_NEIGHBORS` of `document_rag.py`: neighbors requested by
each vector sub-query. -/
def K_NEAREST_NEIGHBORS : Nat := 30

/-- One `VectorizedQuery` as built in `run_search`. -/
structure VectorizedQuery where
  vector : List Rat
  k_nearest_neighbors : Nat
  fields : String
deriving DecidableEq, Repr

/-- The single Evidence Store request issued by `run_search`: lexical
`search_text`, the vector sub-queries, the `select` field list and the
`top` result limit. -/
structure StoreQuery where
  search_text : String
  vector_queries : List VectorizedQuery
  select : List String
  top : Nat
deriving DecidableEq, Repr

/-- One raw document returned by the Evidence Store, restricted to the
selected fields plus the relevance score (`@search.score`).  `ID` and
the score are always present (the Python code indexes them directly);
every other field is read with `.get` and may be absent. -/
structure StoreDoc where
  ID : String
  BrowserFile : Option String := none
  Title : Option String := none
  KeyFacts : Option String := none
  DocumentText : Option String := none
  Commentary : Option String := none
  DateIssued : Option String := none
  Published : Option Bool := none
  DocumentTypes : Option String := none
  NumberOfViolations : Option Int := none
  SettlementAmount : Option String := none
  SanctionPrograms : Option String := none
  Industries : Option String := none
  score : Rat
deriving DecidableEq, Repr

/-- One assembled search-result dictionary appended to `search_results`
in `run_search`. -/
structure SearchResult where
  id : String
  content : String
  title : String
  browser_file : String
  date_issued : String
  document_types : String
  settlement_amount : String
  sanction_programs : String
  industries : String
  score : Rat
deriving DecidableEq, Repr

/-- Python truthiness of `result.get(field)` for a text field: false for
a missing key and for the empty string. -/
def truthy : Option String → Bool
  | none => false
  | some s => !(s == "")

/-- The `content_parts` list built for one result in `run_search`: the
labeled TITLE, KEY FACTS, DOCUMENT TEXT and COMMENTARY sections, each
appended only when its field is truthy. -/
def content_parts (result : StoreDoc) : List String :=
  (if truthy result.Title then
    ["=== TITLE ===\n" ++ result.Title.getD "" ++ "\n=== END TITLE ==="] else []) ++
  (if truthy result.KeyFacts then
    ["=== KEY FACTS ===\n" ++ result.KeyFacts.getD "" ++ "\n=== END KEY FACTS ==="] else []) ++
  (if truthy result.DocumentText then
    ["=== DOCUMENT TEXT ===\n" ++ result.DocumentText.getD "" ++ "\n=== END DOCUMENT TEXT ==="] else []) ++
  (if truthy result.Commentary then
    ["=== COMMENTARY ===\n" ++ result.Commentary.getD "" ++ "\n=== END COMMENTARY ==="] else [])

/-- One `search_result` dictionary of `run_search`: the combined content
(`"\n\n".join(content_parts)`) plus the metadata fields read with
`.get(key, "")`. -/
def mk_search_result (result : StoreDoc) : SearchResult :=
  { id := result.ID
    content := String.intercalate "\n\n" (content_parts result)
    title := result.Title.getD ""
    browser_file := result.BrowserFile.getD ""
    date_issued := result.DateIssued.getD ""
    document_types := result.DocumentTypes.getD ""
    settlement_amount := result.SettlementAmount.getD ""
    sanction_programs := result.SanctionPrograms.getD ""
    industries := result.Industries.getD ""
    score := result.score }

/-- The `select` list passed to the Evidence Store by `run_search`. -/
def run_search_select : List String :=
  ["ID", "BrowserFile", "Title", "KeyFacts", "DocumentText", "Commentary",
   "DateIssued", "Published", "DocumentTypes", "NumberOfViolations",
   "SettlementAmount", "SanctionPrograms", "Industries"]

/-- The single store request `run_search` issues for a query text and
its embedding vector: three vector sub-queries (KeyFactsVector,
DocumentTextVector, CommentaryVector), each with
`K_NEAREST_NEIGHBORS` neighbors, and `top = NUM_SEARCH_RESULTS`. -/
def search_query_of (search_query : String) (query_vector : List Rat) : StoreQuery :=
  { search_text := search_query
    vector_queries :=
      [{ vector := query_vector, k_nearest_neighbors := K_NEAREST_NEIGHBORS,
         fields := "KeyFactsVector" },
       { vector := query_vector, k_nearest_neighbors := K_NEAREST_NEIGHBORS,
         fields := "DocumentTextVector" },
       { vector := query_vector, k_nearest_neighbors := K_NEAREST_NEIGHBORS,
         fields := "CommentaryVector" }]
    select := run_search_select
    top := NUM_SEARCH_RESULTS }

/-- The `run_search` function of `document_rag.py`.  The embedding call
`embeddings_model.embed_query(search_query)` is NOT wrapped in any
`try`: a failure there (or in the store call) propagates to the
caller.  On success the results are assembled in the order the store
returned them. -/
def run_search
    (embed_query : String → Except PyErr (List Rat))
    (store : StoreQuery → Except PyErr (List StoreDoc))
    (search_query : String) : Except PyErr (List SearchResult) := do
  let query_vector ← embed_query search_query
  let results ← store (search_query_of search_query query_vector)
  pure (results.map mk_search_result)

/-- The `final_prompt` system prompt of `generate_answer` (the
strict-grounding instructions; text carried verbatim apart from
whitespace normalisation of the Python triple-quoted literal). -/
def final_prompt : String :=
  "Review the provided documents and commentary to answer the user\x27s question.\n\n    ###Guidance###\n\n    1. From the list of provided documents, list out which are relevant to the user\x27s question.\n    2. For each relevant document, explain how it addresses the user\x27s question. Make sure to cite the document title and put the title in brackets. Always refer to the documents by [title], not by number.\n    3. If the commentary is relevant to the user\x27s question, explain how it addresses the user\x27s question. \n    4. If there is no relevant information in the documents or commentary, say that you couldn\x27t find any relevant information to answer the question. Under no circumstances should you answer with anything outside of the context of the search results. This is a legal search engine AI, accuracy is paramount. Do not make assumptions or inferences.\n    \n    ###Output Format###\n\n    - Always start your answer by identifying which documents you\x27re referencing (e.g., \"According to [Document Title]...\"). \n    - When referencing information, clearly indicate which document it came from\n    - Use the document titles provided in the TITLE sections to identify sources\n    - If information comes from multiple documents, mention all relevant sources\n    - Be specific about which document contains which information\n    - Summarize the expert commentary at the end if relevant to the user\x27s question."

/-- The `formatted_results` list of `generate_answer`: each result\x27s
content under a 1-based `DOCUMENT i:` header. -/
def formatted_results (search_results : List SearchResult) : List String :=
  (List.range search_results.length).zip search_results |>.map
    (fun p => "DOCUMENT " ++ toString (p.1 + 1) ++ ":\n" ++ p.2.content)

/-- The `llm_input` user message of `generate_answer`. -/
def llm_input (user_question : String) (search_results : List SearchResult) : String :=
  "Create a comprehensive answer to the user\x27s question using these search results.\n\nUser Question: " ++
  user_question ++
  "\n\nSearch Results:\n" ++
  String.intercalate "\n" (formatted_results search_results) ++
  "\n\nSynthesize these results into a clear, complete answer. Remember to cite which documents contain the information you\x27re referencing."

/-- The message list sent by `generate_answer`. -/
def generate_messages (user_question : String) (search_results : List SearchResult) :
    List ChatMessage :=
  [⟨"system", final_prompt⟩, ⟨"user", llm_input user_question search_results⟩]

/-- The `generate_answer` function of `document_rag.py`: one completion
call; the provider\x27s text (`response.choices[0].message.content`) is
returned unchanged.  No `try` wraps the call, so a provider failure
propagates. -/
def generate_answer
    (answer_completion : List ChatMessage → Except PyErr String)
    (user_question : String) (search_results : List SearchResult) :
    Except PyErr String :=
  answer_completion (generate_messages user_question search_results)

/-- The dictionary returned by `process_question`. -/
structure RagResult where
  question : String
  documents : List SearchResult
  answer : String
deriving DecidableEq, Repr

/-- The `process_question` function of `document_rag.py`: retrieval then
synthesis.  `orchestrator.py` imports this pipeline from
`document_rag` under the name `advanced_search` (the module defines no
other candidate for that import). -/
def process_question
    (embed_query : String → Except PyErr (List Rat))
    (store : StoreQuery → Except PyErr (List StoreDoc))
    (answer_completion : List ChatMessage → Except PyErr String)
    (question : String) : Except PyErr RagResult := do
  let documents ← run_search embed_query store question
  let answer ← generate_answer answer_completion question documents
  pure { question := question, documents := documents, answer := answer }

/-!
Embedding of `orchestrator.py`: the Query Classifier and the routing
state machine.
-/

/-- The `ORCHESTRATOR_PROMPT` classification system prompt of
`orchestrator.py`. -/
def ORCHESTRATOR_PROMPT : String :=
  "You are a query classification expert for a legal enforcement document search system. Your job is to analyze user questions and classify them into one of these categories:\n\n## QUERY TYPES:\n\n### 1. BASIC_SEARCH (basic_search)\nUse for queries that can be converted into structured search filters. These typically involve:\n- Specific date ranges (\"from 2020 to 2023\", \"in 2022\")\n- Specific programs/sanctions (\"Iran sanctions\", \"OFAC violations\", \"Cuba program\")\n- Specific document types (\"voluntary disclosures\", \"enforcement actions\")\n- Specific industries (\"financial services\", \"shipping\")\n- Specific penalty amounts or ranges (\"over $1 million\", \"penalties above $500k\")\n- Specific respondent characteristics (\"US companies\", \"foreign entities\")\n\nExamples:\n- \"Find OFAC violations related to Iran sanctions from 2020 to 2023\"\n- \"Show me voluntary disclosures in the financial services industry\"\n- \"Search for cases involving penalties over $1 million in 2022\"\n- \"Find enforcement actions against shipping companies for Cuba sanctions\"\n\n### 2. ADVANCED_SEARCH (advanced_search)\nUse for complex questions that require semantic understanding and analysis of document content:\n- Questions about legal interpretations or implications\n- Questions asking \"what\", \"how\", \"why\" that need content analysis\n- Questions requiring synthesis across multiple documents\n- Questions about specific legal concepts or procedures\n- Questions that need expert commentary analysis\n\nExamples:\n- \"Can Iranian origin banknotes be imported into the U.S.?\"\n- \"What are the compliance requirements for financial institutions dealing with sanctioned entities?\"\n- \"How does OFAC determine penalty amounts?\"\n- \"What constitutes a voluntary disclosure under OFAC regulations?\"\n\n### 3. NL2SQL (nl2sql)\nUse for statistical or aggregate questions that would be better answered by database queries:\n- Questions asking for counts, totals, averages, or statistics\n- Questions comparing numbers across different categories\n- Questions about trends over time (statistical trends, not interpretive)\n- Questions asking for rankings or top/bottom lists\n\nExamples:\n- \"How many violations were there in 2023?\"\n- \"What\x27s the average penalty amount for financial institutions?\"\n- \"Which industry had the most violations last year?\"\n- \"Show me the top 10 largest penalties by amount\"\n\n### 4. CLARIFICATION_NEEDED (clarification_needed)\nUse when the query is too vague, ambiguous, or lacks sufficient context:\n- Very short or unclear questions\n- Questions that could apply to multiple categories\n- Questions missing key context (time periods, specific topics, etc.)\n\nExamples:\n- \"Tell me about sanctions\"\n- \"What happened?\"\n- \"Search for violations\"\n\n## INSTRUCTIONS:\n1. Classify the query into one of the 4 types above\n2. Provide a confidence score (0.0 to 1.0) for your classification\n3. Explain your reasoning in 1-2 sentences\n4. If classification is CLARIFICATION_NEEDED, provide a specific clarification question\n\n## CONFIDENCE GUIDELINES:\n- 0.9-1.0: Very clear classification, obvious category\n- 0.7-0.8: Clear classification with minor ambiguity  \n- 0.5-0.6: Moderate confidence, could potentially fit multiple categories\n- 0.0-0.4: Low confidence, ambiguous or unclear\n\nBe decisive but honest about confidence levels. When in doubt between BASIC_SEARCH and ADVANCED_SEARCH, prefer ADVANCED_SEARCH for better user experience."

/-- The message list built inside `classify_query`. -/
def classify_messages (user_question : String) : List ChatMessage :=
  [⟨"system", ORCHESTRATOR_PROMPT⟩,
   ⟨"user", "Classify this query: " ++ user_question⟩]

/-- The `classify_query` function of `orchestrator.py`: one
schema-constrained completion call; any exception (provider failure or
unparseable result) is caught and the fallback classification —
advanced search, confidence 0.5, error-noting rationale — is
returned.  The function never raises. -/
def classify_query
    (classify_completion : List ChatMessage → Except PyErr QueryClassification)
    (user_question : String) : QueryClassification :=
  match classify_completion (classify_messages user_question) with
  | .ok classification => classification
  | .error _ =>
      { query_type := .advanced_search
        confidence := 0.5
        reasoning := "Error occurred during classification, defaulting to advanced search" }

/-- The unified response dictionary returned by
`process_query_with_routing`.  Keys a branch does not set are `none`;
`answer` is `Option String` so that the spec\x27s never-null guarantee is
a provable property rather than a typing artifact. -/
structure OrchestratorResponse where
  question : String
  query_type : String
  classification : Option QueryClassification := none
  clarification_question : Option (Option String) := none
  message : Option String := none
  search_parameters : Option (Option MappedParams) := none
  status : Option String := none
  suggested_alternative : Option String := none
  error : Option String := none
  documents : List SearchResult := []
  answer : Option String := none
deriving DecidableEq, Repr

/-- Models Python `json.dumps(result, indent=2)` on the basic-search
payload.  Every claim treats the rendered text as opaque; only
totality and the `None` case (`"null"`) matter, so the dictionary case
renders through the derived `Repr`. -/
def json_dumps_opt : Option MappedParams → String
  | none => "null"
  | some p => toString (repr p)

/-- The external collaborators of the routing core, bundled: the three
completion uses (classification, filter extraction, answer synthesis),
the query-embedding call and the Evidence Store query. -/
structure Providers where
  classify_completion : List ChatMessage → Except PyErr QueryClassification
  extract_completion : List ChatMessage → Except PyErr SearchParameters
  embed_query : String → Except PyErr (List Rat)
  store : StoreQuery → Except PyErr (List StoreDoc)
  answer_completion : List ChatMessage → Except PyErr String

/-- The `nl2sql_placeholder` function of `orchestrator.py`: the fixed
not-implemented stub response. -/
def nl2sql_placeholder (user_question : String) : OrchestratorResponse :=
  { question := user_question
    query_type := "nl2sql"
    status := some "not_implemented"
    message := some "Statistical and aggregate queries are not yet supported. This feature is coming soon!"
    suggested_alternative := some "Try rephrasing your question to search for specific documents or cases instead."
    documents := []
    answer := some "I apologize, but I cannot process statistical queries yet. This feature is under development. Please try asking about specific documents, cases, or legal concepts instead." }

/-- The uniform error response built in the `except` clause of
`process_query_with_routing`. -/
def orchestrator_error_response (user_question : String) (e : PyErr) : OrchestratorResponse :=
  { question := user_question
    query_type := "error"
    error := some (strPyErr e)
    message := some "An error occurred while processing your query."
    documents := []
    answer := some "I apologize, but I encountered an error while processing your question. Please try rephrasing your query." }

/-- The `process_query_with_routing` function of `orchestrator.py`.
Classification happens outside the `try` but cannot raise; inside the
`try`, the clarification, basic-search and nl2sql branches are total,
and the advanced-search branch (`advanced_search`, i.e.
`document_rag.process_question`) is the only fallible step, so the
`except` clause fires exactly on its failures.  The Python `else`
fallback (`"advanced_search_fallback"`) is unreachable because the
classification\x27s `query_type` always inhabits the four-member enum. -/
def process_query_with_routing (p : Providers) (user_question : String) :
    OrchestratorResponse :=
  let classification := classify_query p.classify_completion user_question
  match classification.query_type with
  | .clarification_needed =>
      { question := user_question
        query_type := "clarification_needed"
        classification := some classification
        clarification_question := some classification.clarification_question
        message := some "I need more information to help you effectively."
        documents := []
        answer := some ("I need clarification to provide the best results. " ++
          pyFormatOptStr classification.clarification_question) }
  | .basic_search =>
      let result := basic_search p.extract_completion user_question
      { question := user_question
        query_type := "basic_search"
        classification := some classification
        search_parameters := some result
        documents := []
        answer := some ("I\x27ve processed your query into structured search parameters. The system would search for documents matching these criteria: " ++
          json_dumps_opt result) }
  | .advanced_search =>
      match process_question p.embed_query p.store p.answer_completion user_question with
      | .ok result =>
          { question := result.question
            query_type := "advanced_search"
            classification := some classification
            documents := result.documents
            answer := some result.answer }
      | .error e => orchestrator_error_response user_question e
  | .nl2sql =>
      { nl2sql_placeholder user_question with classification := some classification }

/-!
Embedding of the request layer, `app.py`: the `/chat` endpoint.
-/

/-- The characters Python `str.strip()` removes. -/
def py_whitespace : List Char := [' ', '\t', '\n', '\r', '\x0b', '\x0c']

/-- Python `str.strip()` with no argument: trim leading and trailing
whitespace. -/
def py_strip (s : String) : String :=
  ⟨(((s.data.dropWhile (fun c => c ∈ py_whitespace)).reverse.dropWhile
      (fun c => c ∈ py_whitespace)).reverse)⟩

/-- The `ChatResponse` pydantic model of `app.py`; the re-validated
document dictionaries carry the same fields as the retriever\x27s
results, so they are reused here.  `result.get` on a key holding a
possibly-`None` value flattens the two layers, hence the joined
option types relative to `OrchestratorResponse`. -/
structure ChatResponse where
  question : String
  query_type : String
  classification : Option QueryClassification := none
  documents : List SearchResult := []
  answer : String
  search_parameters : Option MappedParams := none
  clarification_question : Option String := none
  message : Option String := none
  error : Option String := none
deriving DecidableEq, Repr

/-- Construction of the `ChatResponse` from the orchestrator result in
`chat_endpoint`: document re-wrapping with `.get` defaults is the
identity on the already-total result fields, `query_type` falls back
to `"unknown"` only for a missing key (never here), and `answer`
falls back to `"No answer provided"` when the key is absent or null. -/
def chat_response_of (result : OrchestratorResponse) : ChatResponse :=
  { question := result.question
    query_type := result.query_type
    classification := result.classification
    documents := result.documents
    answer := result.answer.getD "No answer provided"
    search_parameters := result.search_parameters.join
    clarification_question := result.clarification_question.join
    message := result.message
    error := result.error }

/-- The body of the `try` block of `chat_endpoint` in `app.py`: reject a
question that is empty after stripping with `HTTPException(400)`,
otherwise run the orchestrator and build the response. -/
def chat_endpoint_body (process : String → OrchestratorResponse) (question : String) :
    Except PyErr ChatResponse :=
  if py_strip question == "" then
    .error (.http 400 "Question cannot be empty")
  else
    .ok (chat_response_of (process question))

/-- The `chat_endpoint` of `app.py`.  Its blanket `except Exception`
catches every exception raised inside the `try` — including the
endpoint\x27s own `HTTPException(400)`, since FastAPI\x27s `HTTPException`
subclasses `Exception` — and re-raises `HTTPException(500,
"Internal server error: " + str(e))`. -/
def chat_endpoint (process : String → OrchestratorResponse) (question : String) :
    Except PyErr ChatResponse :=
  match chat_endpoint_body process question with
  | .ok response => .ok response
  | .error e => .error (.http 500 ("Internal server error: " ++ strPyErr e))

/-!
Spec-side definitions (for refinement claims) and concrete sample data
used by witnesses.
-/

/-- Spec-side section constructor, following the spec\x27s words for
per-result content assembly: a labeled section is emitted only when
the underlying field is present and non-empty, and is dropped
entirely otherwise. -/
def section_if_present (header footer : String) (field : Option String) : Option String :=
  match field with
  | none => none
  | some body => if body = "" then none else some (header ++ body ++ footer)

/-- Spec-side restatement of the per-result content assembly (spec
section 4.3): exactly the labeled sections TITLE, KEY FACTS, DOCUMENT
TEXT, COMMENTARY in that order, with explicit delimiters, any section
whose field is empty or missing omitted entirely, joined by blank
lines. -/
def content_spec (doc : StoreDoc) : String :=
  String.intercalate "\n\n" (List.filterMap id
    [section_if_present ("=== TITLE ===\n") ("\n=== END TITLE ===") doc.Title,
     section_if_present ("=== KEY FACTS ===\n") ("\n=== END KEY FACTS ===") doc.KeyFacts,
     section_if_present ("=== DOCUMENT TEXT ===\n") ("\n=== END DOCUMENT TEXT ===") doc.DocumentText,
     section_if_present ("=== COMMENTARY ===\n") ("\n=== END COMMENTARY ===") doc.Commentary])

/-- A deterministic classification result used by concrete witnesses. -/
def sampleClassification (t : QueryType) : QueryClassification :=
  { query_type := t, confidence := 0.9, reasoning := "sample reasoning" }

/-- A classification provider that always parses to the given tag. -/
def classifyOk (t : QueryType) : List ChatMessage → Except PyErr QueryClassification :=
  fun _ => .ok (sampleClassification t)

/-- A classification provider whose completion call always raises. -/
def classifyFail : List ChatMessage → Except PyErr QueryClassification :=
  fun _ => .error (.err "classification failure")

/-- A filter-extraction provider whose completion call always raises. -/
def extractFail : List ChatMessage → Except PyErr SearchParameters :=
  fun _ => .error (.err "extraction failure")

/-- An embedding provider that always succeeds with a fixed vector. -/
def embedOk : String → Except PyErr (List Rat) :=
  fun _ => .ok [1, 0, 0]

/-- An embedding provider that always raises. -/
def embedFail : String → Except PyErr (List Rat) :=
  fun _ => .error (.err "embedding failure")

/-- A concrete Evidence Store document: title and key facts present,
document text missing, commentary present but empty. -/
def sampleDoc : StoreDoc :=
  { ID := "doc-1"
    Title := some "Sample Enforcement Release"
    KeyFacts := some "Key facts body"
    DocumentText := none
    Commentary := some ""
    score := 2 }

/-- An Evidence Store that returns the one sample document. -/
def storeOk : StoreQuery → Except PyErr (List StoreDoc) :=
  fun _ => .ok [sampleDoc]

/-- An Evidence Store whose query always raises. -/
def storeFail : StoreQuery → Except PyErr (List StoreDoc) :=
  fun _ => .error (.err "store failure")

/-- An answer-synthesis provider returning a fixed completion text. -/
def answerOk (s : String) : List ChatMessage → Except PyErr String :=
  fun _ => .ok s

/-- The crafted no-relevant-information completion of the grounding
property (spec section 8). -/
def noRelevantInfo : String :=
  "I couldn\x27t find any relevant information to answer the question."

/-- A full provider bundle: deterministic classification to the given
tag, failing extractor, succeeding embedding, one-document store,
fixed synthesized answer. -/
def sampleProviders (t : QueryType) : Providers :=
  { classify_completion := classifyOk t
    extract_completion := extractFail
    embed_query := embedOk
    store := storeOk
    answer_completion := answerOk noRelevantInfo }

/-!
Claim theorems.
-/

/-- Helper: filtering the present values out of four options is the
concatenation of their singleton-or-empty lists. -/
theorem filterMap_id_four {α : Type} (a b c d : Option α) :
    List.filterMap id [a, b, c, d] = a.toList ++ b.toList ++ c.toList ++ d.toList := by
  cases a <;> cases b <;> cases c <;> cases d <;> rfl

/-- Claim C9: for every retrieved document, the assembled `content`
string is the concatenation of exactly the labeled TITLE, KEY FACTS,
DOCUMENT TEXT, COMMENTARY sections in that order, with explicit
delimiters, omitting entirely any section whose underlying field is
empty or missing — the code\x27s assembly coincides with the spec-side
assembly on every document. -/
theorem content_assembly_matches_spec (doc : StoreDoc) :
    content_parts doc = List.filterMap id
      [section_if_present ("=== TITLE ===\n") ("\n=== END TITLE ===") doc.Title,
       section_if_present ("=== KEY FACTS ===\n") ("\n=== END KEY FACTS ===") doc.KeyFacts,
       section_if_present ("=== DOCUMENT TEXT ===\n") ("\n=== END DOCUMENT TEXT ===") doc.DocumentText,
       section_if_present ("=== COMMENTARY ===\n") ("\n=== END COMMENTARY ===") doc.Commentary] ∧
    (mk_search_result doc).content = content_spec doc := by
  have hsec : ∀ (h f : String) (o : Option String),
      (if truthy o then [h ++ o.getD "" ++ f] else []) =
        (section_if_present h f o).toList := by
    intro h f o
    cases o with
    | none => simp [truthy, section_if_present]
    | some body =>
        by_cases hb : body = "" <;>
          simp [truthy, section_if_present, hb]
  have hparts : content_parts doc = List.filterMap id
      [section_if_present ("=== TITLE ===\n") ("\n=== END TITLE ===") doc.Title,
       section_if_present ("=== KEY FACTS ===\n") ("\n=== END KEY FACTS ===") doc.KeyFacts,
       section_if_present ("=== DOCUMENT TEXT ===\n") ("\n=== END DOCUMENT TEXT ===") doc.DocumentText,
       section_if_present ("=== COMMENTARY ===\n") ("\n=== END COMMENTARY ===") doc.Commentary] := by
    rw [content_parts, filterMap_id_four, hsec, hsec, hsec, hsec]
  exact ⟨hparts, by simp [mk_search_result, content_spec, hparts]⟩

/-- Claim C4: whenever the completion call inside classification fails
(raises or is unparseable), `classify_query` does not raise and
returns the fallback classification: advanced search, confidence 0.5,
a rationale noting the failure, and no clarification question. -/
theorem classify_query_fallback_on_failure
    (classify_completion : List ChatMessage → Except PyErr QueryClassification)
    (user_question : String) (e : PyErr)
    (hfail : classify_completion (classify_messages user_question) = .error e) :
    classify_query classify_completion user_question =
      { query_type := .advanced_search
        confidence := 0.5
        reasoning := "Error occurred during classification, defaulting to advanced search"
        clarification_question := none } := by
  simp [classify_query, hfail]

/-- Witness for claim C4 at the concrete failing provider. -/
theorem classify_query_fallback_on_failure_witness :
    classify_query classifyFail ("Tell me about sanctions") =
      { query_type := .advanced_search
        confidence := 0.5
        reasoning := "Error occurred during classification, defaulting to advanced search"
        clarification_question := none } :=
  classify_query_fallback_on_failure classifyFail ("Tell me about sanctions")
    (.err "classification failure") rfl

/-- Claim C3 (code bug): on an empty or whitespace-only question the
endpoint does reject before invoking the orchestrator or any
collaborator — the result is the same for every `process` function —
but its own `HTTPException(400)` is caught by the blanket
`except Exception` and re-raised as a 500, so the client sees a
server-error signal, not the claimed 4xx. -/
theorem chat_endpoint_empty_question_rejected_500 :
    ∀ process : String → OrchestratorResponse,
      chat_endpoint process ("") =
        .error (.http 500 ("Internal server error: 400: Question cannot be empty")) ∧
      chat_endpoint process ("   ") =
        .error (.http 500 ("Internal server error: 400: Question cannot be empty")) ∧
      chat_endpoint process (" \t\n ") =
        .error (.http 500 ("Internal server error: 400: Question cannot be empty")) := by
  intro process
  refine ⟨rfl, rfl, rfl⟩

/-- Counterexample for claim C6: with an embedding provider that fails,
`run_search` does not degrade to the zero-vector — it aborts, the
embedding exception escaping the retrieval step; no result list is
ever produced. -/
theorem run_search_embed_failure_aborts :
    run_search embedFail storeOk ("test question") =
        .error (.err "embedding failure") ∧
      ¬ ∃ out, run_search embedFail storeOk ("test question") = .ok out := by
  constructor
  · rfl
  · rintro ⟨out, hout⟩
    simp [run_search, embedFail, Bind.bind, Except.bind, Pure.pure, Except.pure] at hout

/-- Claim C6 as amended: an embedding failure for the query text
propagates out of `run_search` unchanged — retrieval is aborted and
no Evidence Store query is issued (the result is independent of the
store) — and when the question was routed to the semantic branch the
Orchestrator\x27s top-level handler converts the escaped exception into
the uniform error response. -/
theorem run_search_embed_failure_propagates
    (embed : String → Except PyErr (List Rat))
    (st st2 : StoreQuery → Except PyErr (List StoreDoc))
    (q : String) (e : PyErr)
    (hfail : embed q = .error e) :
    run_search embed st q = .error e ∧
    run_search embed st q = run_search embed st2 q ∧
    ∀ (p : Providers) (c : QueryClassification),
      p.embed_query = embed →
      p.classify_completion (classify_messages q) = .ok c →
      c.query_type = .advanced_search →
      process_query_with_routing p q = orchestrator_error_response q e := by
  have hrun : ∀ st3 : StoreQuery → Except PyErr (List StoreDoc),
      run_search embed st3 q = .error e := by
    intro st3
    simp [run_search, hfail, Bind.bind, Except.bind, Pure.pure, Except.pure]
  refine ⟨hrun st, (hrun st).trans (hrun st2).symm, ?_⟩
  intro p c hpe hcls htag
  simp [process_query_with_routing, classify_query, hcls, htag, process_question,
    hpe, hrun, Bind.bind, Except.bind, Pure.pure, Except.pure]

/-- Helper: full reduction of the semantic-search branch when every
collaborator call succeeds — classification parses to the
advanced-search tag, the query embeds to `v`, the store returns
`docs`, and the synthesis completion returns `s`. -/
theorem orchestrator_advanced_branch_eq
    (p : Providers) (q : String) (c : QueryClassification)
    (v : List Rat) (docs : List StoreDoc) (s : String)
    (hcls : p.classify_completion (classify_messages q) = .ok c)
    (htag : c.query_type = .advanced_search)
    (hembed : p.embed_query q = .ok v)
    (hstore : p.store (search_query_of q v) = .ok docs)
    (hsynth : p.answer_completion (generate_messages q (docs.map mk_search_result)) = .ok s) :
    process_query_with_routing p q =
      { question := q
        query_type := "advanced_search"
        classification := some c
        documents := docs.map mk_search_result
        answer := some s } := by
  simp [process_query_with_routing, classify_query, hcls, htag, process_question,
    run_search, generate_answer, hembed, hstore, hsynth, Bind.bind, Except.bind, Pure.pure, Except.pure]

/-- Claim C2: when the classification tag is the hybrid-semantic
(advanced_search) tag, the Orchestrator runs the Hybrid Retriever
(whose output is the store\x27s ranked list for the hybrid query built
from the question) and then the Answer Synthesizer (whose completion
is issued over that evidence), and the returned response carries both
the ranked evidence list in `documents` and the synthesized answer in
`answer`. -/
theorem advanced_branch_runs_retriever_then_synthesizer
    (p : Providers) (q : String) (c : QueryClassification)
    (v : List Rat) (docs : List StoreDoc) (s : String)
    (hcls : p.classify_completion (classify_messages q) = .ok c)
    (htag : c.query_type = .advanced_search)
    (hembed : p.embed_query q = .ok v)
    (hstore : p.store (search_query_of q v) = .ok docs)
    (hsynth : p.answer_completion (generate_messages q (docs.map mk_search_result)) = .ok s) :
    process_query_with_routing p q =
      { question := q
        query_type := "advanced_search"
        classification := some c
        documents := docs.map mk_search_result
        answer := some s } :=
  orchestrator_advanced_branch_eq p q c v docs s hcls htag hembed hstore hsynth

/-- Witness for claim C2 at a concrete provider bundle. -/
theorem advanced_branch_runs_retriever_then_synthesizer_witness :
    process_query_with_routing (sampleProviders .advanced_search)
        ("Can Iranian origin banknotes be imported into the U.S.?") =
      { question := "Can Iranian origin banknotes be imported into the U.S.?"
        query_type := "advanced_search"
        classification := some (sampleClassification .advanced_search)
        documents := [sampleDoc].map mk_search_result
        answer := some noRelevantInfo } :=
  advanced_branch_runs_retriever_then_synthesizer (sampleProviders .advanced_search)
    ("Can Iranian origin banknotes be imported into the U.S.?")
    (sampleClassification .advanced_search) [1, 0, 0] [sampleDoc] noRelevantInfo
    rfl rfl rfl rfl rfl

/-- Claim C8: `run_search` issues one store query whose `top` limit is
`NUM_SEARCH_RESULTS = 15` and whose three vector sub-queries
(KeyFactsVector, DocumentTextVector, CommentaryVector) each request
`K_NEAREST_NEIGHBORS = 30` neighbors; the output is the store\x27s
returned list mapped in place — order preserved, rank 1 first — and
never exceeds `topK` items when the store honors its `top` limit. -/
theorem run_search_order_topk_defaults
    (embed : String → Except PyErr (List Rat))
    (st : StoreQuery → Except PyErr (List StoreDoc))
    (q : String) (v : List Rat) (docs : List StoreDoc)
    (hembed : embed q = .ok v)
    (hstore : st (search_query_of q v) = .ok docs)
    (hlen : docs.length ≤ NUM_SEARCH_RESULTS) :
    run_search embed st q = .ok (docs.map mk_search_result) ∧
    (docs.map mk_search_result).length ≤ NUM_SEARCH_RESULTS ∧
    NUM_SEARCH_RESULTS = 15 ∧
    K_NEAREST_NEIGHBORS = 30 ∧
    (search_query_of q v).top = 15 ∧
    (search_query_of q v).vector_queries =
      [{ vector := v, k_nearest_neighbors := 30, fields := "KeyFactsVector" },
       { vector := v, k_nearest_neighbors := 30, fields := "DocumentTextVector" },
       { vector := v, k_nearest_neighbors := 30, fields := "CommentaryVector" }] := by
  refine ⟨?_, by simpa using hlen, rfl, rfl, rfl, rfl⟩
  simp [run_search, hembed, hstore, Bind.bind, Except.bind, Pure.pure, Except.pure]

/-- Witness for claim C8 at a concrete store returning one document. -/
theorem run_search_order_topk_defaults_witness :
    run_search embedOk storeOk ("sample semantic question") =
        .ok ([sampleDoc].map mk_search_result) ∧
      ([sampleDoc].map mk_search_result).length ≤ NUM_SEARCH_RESULTS ∧
      NUM_SEARCH_RESULTS = 15 ∧
      K_NEAREST_NEIGHBORS = 30 ∧
      (search_query_of ("sample semantic question") [1, 0, 0]).top = 15 ∧
      (search_query_of ("sample semantic question") [1, 0, 0]).vector_queries =
        [{ vector := [1, 0, 0], k_nearest_neighbors := 30, fields := "KeyFactsVector" },
         { vector := [1, 0, 0], k_nearest_neighbors := 30, fields := "DocumentTextVector" },
         { vector := [1, 0, 0], k_nearest_neighbors := 30, fields := "CommentaryVector" }] :=
  run_search_order_topk_defaults embedOk storeOk ("sample semantic question")
    [1, 0, 0] [sampleDoc] rfl rfl (by decide)

/-- Claim C5: the synthesized answer is a pass-through of the
completion provider\x27s output — whatever text the Completion Provider
returns during answer synthesis is placed unmodified in the
response\x27s `answer` field, and the request layer delivers exactly
that text to the caller (so a stub provider returning a crafted
no-relevant-information response reaches the caller verbatim). -/
theorem synthesized_answer_passthrough
    (p : Providers) (q : String) (c : QueryClassification)
    (v : List Rat) (docs : List StoreDoc) (s : String)
    (hcls : p.classify_completion (classify_messages q) = .ok c)
    (htag : c.query_type = .advanced_search)
    (hembed : p.embed_query q = .ok v)
    (hstore : p.store (search_query_of q v) = .ok docs)
    (hsynth : p.answer_completion (generate_messages q (docs.map mk_search_result)) = .ok s)
    (hq : py_strip q ≠ "") :
    generate_answer p.answer_completion q (docs.map mk_search_result) = .ok s ∧
    (process_query_with_routing p q).answer = some s ∧
    chat_endpoint (process_query_with_routing p) q =
      .ok (chat_response_of (process_query_with_routing p q)) ∧
    (chat_response_of (process_query_with_routing p q)).answer = s := by
  have hmain := orchestrator_advanced_branch_eq p q c v docs s hcls htag hembed hstore hsynth
  refine ⟨hsynth, by rw [hmain], ?_, by rw [hmain]; rfl⟩
  simp [chat_endpoint, chat_endpoint_body, hq]

/-- Witness for claim C5: a stub Completion Provider returning the
crafted no-relevant-information text, delivered verbatim. -/
theorem synthesized_answer_passthrough_witness :
    generate_answer (sampleProviders .advanced_search).answer_completion
        ("What is the largest OFAC penalty?") ([sampleDoc].map mk_search_result) =
        .ok noRelevantInfo ∧
      (process_query_with_routing (sampleProviders .advanced_search)
          ("What is the largest OFAC penalty?")).answer = some noRelevantInfo ∧
      chat_endpoint (process_query_with_routing (sampleProviders .advanced_search))
          ("What is the largest OFAC penalty?") =
        .ok (chat_response_of (process_query_with_routing (sampleProviders .advanced_search)
          ("What is the largest OFAC penalty?"))) ∧
      (chat_response_of (process_query_with_routing (sampleProviders .advanced_search)
          ("What is the largest OFAC penalty?"))).answer = noRelevantInfo :=
  synthesized_answer_passthrough (sampleProviders .advanced_search)
    ("What is the largest OFAC penalty?") (sampleClassification .advanced_search)
    [1, 0, 0] [sampleDoc] noRelevantInfo rfl rfl rfl rfl rfl (by decide)

/-- Claim C7: when the classification tag is the statistical (nl2sql)
tag, the Orchestrator returns the fixed stub response — status
`not_implemented`, the suggested-alternative rephrase message, the
fixed placeholder answer, an empty documents list, the question
echoed — and no retrieval or synthesis is performed: the response is
independent of the extractor, embedding, store and synthesis
collaborators. -/
theorem nl2sql_branch_fixed_stub
    (p : Providers) (q : String) (c : QueryClassification)
    (hcls : p.classify_completion (classify_messages q) = .ok c)
    (htag : c.query_type = .nl2sql) :
    process_query_with_routing p q =
      { nl2sql_placeholder q with classification := some c } ∧
    (process_query_with_routing p q).status = some "not_implemented" ∧
    (process_query_with_routing p q).suggested_alternative =
      some "Try rephrasing your question to search for specific documents or cases instead." ∧
    (process_query_with_routing p q).answer =
      some "I apologize, but I cannot process statistical queries yet. This feature is under development. Please try asking about specific documents, cases, or legal concepts instead." ∧
    (process_query_with_routing p q).documents = [] ∧
    (process_query_with_routing p q).question = q ∧
    (process_query_with_routing p q).query_type = "nl2sql" ∧
    ∀ (x : List ChatMessage → Except PyErr SearchParameters)
      (em : String → Except PyErr (List Rat))
      (st : StoreQuery → Except PyErr (List StoreDoc))
      (an : List ChatMessage → Except PyErr String),
      process_query_with_routing
        { classify_completion := p.classify_completion, extract_completion := x,
          embed_query := em, store := st, answer_completion := an } q =
        process_query_with_routing p q := by
  have hmain : process_query_with_routing p q =
      { nl2sql_placeholder q with classification := some c } := by
    simp [process_query_with_routing, classify_query, hcls, htag]
  refine ⟨hmain, ?_, ?_, ?_, ?_, ?_, ?_, ?_⟩
  · rw [hmain]; rfl
  · rw [hmain]; rfl
  · rw [hmain]; rfl
  · rw [hmain]; rfl
  · rw [hmain]; rfl
  · rw [hmain]; rfl
  · intro x em st an
    have hother : process_query_with_routing
        { classify_completion := p.classify_completion, extract_completion := x,
          embed_query := em, store := st, answer_completion := an } q =
        { nl2sql_placeholder q with classification := some c } := by
      simp [process_query_with_routing, classify_query, hcls, htag]
    rw [hother, hmain]

/-- Witness for claim C7 at the statistical scenario question. -/
theorem nl2sql_branch_fixed_stub_witness :
    process_query_with_routing (sampleProviders .nl2sql)
        ("How many violations were there in 2023?") =
      { nl2sql_placeholder ("How many violations were there in 2023?") with
        classification := some (sampleClassification .nl2sql) } :=
  (nl2sql_branch_fixed_stub (sampleProviders .nl2sql)
    ("How many violations were there in 2023?") (sampleClassification .nl2sql)
    rfl rfl).1

/-- Claim C10: when the structured-filter branch\x27s completion call
fails, the failure surfaces to the Orchestrator as the typed `None`
result of `basic_search`, and the Orchestrator degrades to a
well-formed basic-search response — null search parameters, empty
documents, a populated answer string — rather than crashing the
request (the error branch is not taken). -/
theorem basic_branch_degrades_on_extractor_failure
    (p : Providers) (q : String) (c : QueryClassification) (e : PyErr)
    (hcls : p.classify_completion (classify_messages q) = .ok c)
    (htag : c.query_type = .basic_search)
    (hext : p.extract_completion (extract_messages q) = .error e) :
    basic_search p.extract_completion q = none ∧
    process_query_with_routing p q =
      { question := q
        query_type := "basic_search"
        classification := some c
        search_parameters := some none
        documents := []
        answer := some ("I\x27ve processed your query into structured search parameters. The system would search for documents matching these criteria: " ++
          json_dumps_opt none) } := by
  have hb : basic_search p.extract_completion q = none := by
    simp [basic_search, user_query_to_structured_outputs, hext]
  exact ⟨hb, by simp [process_query_with_routing, classify_query, hcls, htag, hb]⟩

/-- Witness for claim C10 at a concrete failing extractor. -/
theorem basic_branch_degrades_on_extractor_failure_witness :
    basic_search (sampleProviders .basic_search).extract_completion
        ("Find OFAC violations related to Iran sanctions from 2020 to 2023") = none ∧
      process_query_with_routing (sampleProviders .basic_search)
          ("Find OFAC violations related to Iran sanctions from 2020 to 2023") =
        { question := "Find OFAC violations related to Iran sanctions from 2020 to 2023"
          query_type := "basic_search"
          classification := some (sampleClassification .basic_search)
          search_parameters := some none
          documents := []
          answer := some ("I\x27ve processed your query into structured search parameters. The system would search for documents matching these criteria: " ++
            json_dumps_opt none) } :=
  basic_branch_degrades_on_extractor_failure (sampleProviders .basic_search)
    ("Find OFAC violations related to Iran sanctions from 2020 to 2023")
    (sampleClassification .basic_search) (.err "extraction failure") rfl rfl rfl

/-- Claim C1: for every non-empty question and every collaborator
behavior, the Orchestrator\x27s `process_query_with_routing` returns a
response whose `answer` is populated (never null) and whose
`query_type` is one of the five defined values — the four tags plus
`"error"`.  The Python `else` fallback tag is unreachable because the
classification enum has exactly four members. -/
theorem orchestrator_response_wellformed
    (p : Providers) (q : String) (hq : q ≠ "") :
    (process_query_with_routing p q).answer.isSome = true ∧
    (process_query_with_routing p q).query_type ∈
      (["clarification_needed", "basic_search", "advanced_search", "nl2sql", "error"] :
        List String) := by
  cases htag : (classify_query p.classify_completion q).query_type with
  | basic_search =>
      constructor <;> simp [process_query_with_routing, htag]
  | advanced_search =>
      cases hr : process_question p.embed_query p.store p.answer_completion q with
      | ok result =>
          constructor <;> simp [process_query_with_routing, htag, hr]
      | error e =>
          constructor <;>
            simp [process_query_with_routing, htag, hr, orchestrator_error_response]
  | nl2sql =>
      constructor <;> simp [process_query_with_routing, htag, nl2sql_placeholder]
  | clarification_needed =>
      constructor <;> simp [process_query_with_routing, htag]

/-- Witness for claim C1 at a concrete non-empty question. -/
theorem orchestrator_response_wellformed_witness :
    ("Tell me about sanctions" : String) ≠ "" ∧
      ((process_query_with_routing (sampleProviders .advanced_search)
          ("Tell me about sanctions")).answer.isSome = true ∧
        (process_query_with_routing (sampleProviders .advanced_search)
            ("Tell me about sanctions")).query_type ∈
          (["clarification_needed", "basic_search", "advanced_search", "nl2sql", "error"] :
            List String)) :=
  ⟨by decide,
    orchestrator_response_wellformed (sampleProviders .advanced_search)
      ("Tell me about sanctions") (by decide)⟩

/-- Witness for the amended claim C6 at concrete inputs. -/
theorem run_search_embed_failure_propagates_witness :
    run_search embedFail storeOk ("witness question") =
        .error (.err "embedding failure") ∧
      run_search embedFail storeOk ("witness question") =
        run_search embedFail storeFail ("witness question") ∧
      ∀ (p : Providers) (c : QueryClassification),
        p.embed_query = embedFail →
        p.classify_completion (classify_messages ("witness question")) = .ok c →
        c.query_type = .advanced_search →
        process_query_with_routing p ("witness question") =
          orchestrator_error_response ("witness question") (.err "embedding failure") :=
  run_search_embed_failure_propagates embedFail storeOk storeFail
    ("witness question") (.err "embedding failure") rfl
